import Mathlib

/-!
Verification development for the kobold reactive-UI runtime core.

The Rust sources under scrutiny are:
- crates/kobold/src/value.rs     (primitive Html adapters, StrCmp memo)
- crates/kobold/src/stateful/hook.rs (Hook, Signal, Bound, BoundListener)
- crates/kobold/src/stateful/ctx.rs  (Context, Callback, CallbackProduct)
- crates/kobold/src/dom.rs       (Element, Fragment)

Parts of the crate that these files reference but whose sources are not in
the repository snapshot (the state cell in stateful/cell.rs, Inner and
ShouldRender in stateful/mod.rs, and the __kobold_* DOM primitives in
util.rs) are modelled from the specification; each such definition carries
a doc comment starting with "Modelled from the spec:".

Machine integers are modelled as Nat with explicit reduction modulo 2^64
where 64-bit wrapping arithmetic occurs (the FNV hash); effects on the
external primitive-node API and on Inner are modelled as explicit effect
lists; aborts (Rust panics) are modelled as Except.error.
-/

namespace Kobold

/-- Modelled from the spec: ShouldRender (stateful/mod.rs is missing from the
snapshot).  Spec section 3: a two-valued decision, Render or Skip; a unit
returning mutator converts to Render, a boolean converts with true = Render. -/
inductive ShouldRender where
  | render
  | skip
deriving DecidableEq, Repr

/-- The should_render projection used by the trampolines in ctx.rs and hook.rs. -/
def ShouldRender.should_render : ShouldRender → Bool
  | .render => true
  | .skip => false

/-- Modelled from the spec: conversion of a unit-returning mutator outcome
into a decision (always Render), spec section 3. -/
def ShouldRender.ofUnit (_ : Unit) : ShouldRender := .render

/-- Modelled from the spec: conversion of a boolean mutator outcome into a
decision (true = Render), spec section 3. -/
def ShouldRender.ofBool (b : Bool) : ShouldRender :=
  if b then .render else .skip

/-- Modelled from the spec: the runtime-checked state cell of
stateful/cell.rs (missing from the snapshot).  Spec section 3: wraps the
application state S with a runtime-checked access mode; an exclusive borrow
is tracked by a flag; spec sections 4.3 and 9: the checked acquire aborts
when an exclusive borrow is already open, while mut_unchecked is the
unchecked fast path that performs no check at all. -/
structure WithCell (S : Type) where
  value : S
  borrowed : Bool
deriving DecidableEq, Repr

/-- Modelled from the spec: the state container Inner of stateful/mod.rs
(missing from the snapshot).  Spec section 3: state cell plus the mounted
Product; for the claims below only the cell matters, and a call to
Inner::update is recorded as an explicit effect. -/
structure Inner (S : Type) where
  state : WithCell S
deriving DecidableEq, Repr

/-- Observable effects of the stateful dispatch paths: invoking the user
mutator, and calling Inner::update (which re-renders the Product). -/
inductive Effect where
  | mutatorCall
  | innerUpdate
deriving DecidableEq, Repr

/-- The event-listener trampoline built by Context::new in ctx.rs
(make_closure, lines 40-50): it acquires the state exclusively through the
checked borrow_mut of the cell (which aborts - Except.error here - when a
borrow is already open), runs the callback, and calls inner.update() when
the decision converts to Render.  The callback is modelled as a pure
function from state and event to new state and decision. -/
def contextTrampoline {S E : Type} (callback : S → E → S × ShouldRender)
    (inner : Inner S) (event : E) : Except String (Inner S × List Effect) :=
  if inner.state.borrowed then
    .error "already borrowed"
  else
    let (s, decision) := callback inner.state.value event
    .ok (⟨⟨s, false⟩⟩,
      [Effect.mutatorCall] ++
        (if decision.should_render then [Effect.innerUpdate] else []))

/-- The event-listener trampoline built by Bound::into_listener in hook.rs
(lines 160-176): it takes the state through mut_unchecked - the unchecked
fast path, which performs no borrow-flag check and never aborts - runs the
callback, and calls inner.update() when the decision says render.  The
codomain is the same Except type as contextTrampoline to make the absence
of the abort visible; the result is always Except.ok. -/
def boundTrampoline {S E : Type} (callback : S → E → S × ShouldRender)
    (inner : Inner S) (event : E) : Except String (Inner S × List Effect) :=
  let (s, decision) := callback inner.state.value event
  .ok (⟨⟨s, inner.state.borrowed⟩⟩,
    [Effect.mutatorCall] ++
      (if decision.should_render then [Effect.innerUpdate] else []))

/-- Signal from hook.rs: a non-owning weak handle to Inner, modelled as an
Option which is none once the owning Inner has been destroyed (a failed
Weak::upgrade). -/
def Signal (S : Type) := Option (Inner S)

/-- Signal::update from hook.rs lines 53-63: when the upgrade succeeds, run
the mutator on the state through the checked access of the cell (with,
modelled from spec section 3 as aborting on an open exclusive borrow) and
call inner.update() when the decision converts to Render; when the upgrade
fails, do nothing. -/
def Signal.update {S : Type} (signal : Signal S)
    (mutator : S → S × ShouldRender) : Except String (Signal S × List Effect) :=
  match signal with
  | none => .ok (none, [])
  | some inner =>
    if inner.state.borrowed then
      .error "already borrowed"
    else
      let (s, decision) := mutator inner.state.value
      .ok (some ⟨⟨s, false⟩⟩,
        [Effect.mutatorCall] ++
          (if decision.should_render then [Effect.innerUpdate] else []))

/-- Signal::update_silent from hook.rs lines 66-73: when the upgrade
succeeds, run the mutator on the state through the checked access of the
cell, and never call inner.update(); when the upgrade fails, do nothing. -/
def Signal.update_silent {S : Type} (signal : Signal S)
    (mutator : S → S) : Except String (Signal S × List Effect) :=
  match signal with
  | none => .ok (none, [])
  | some inner =>
    if inner.state.borrowed then
      .error "already borrowed"
    else
      .ok (some ⟨⟨mutator inner.state.value, false⟩⟩, [Effect.mutatorCall])

/-- Signal::set from hook.rs lines 76-78: self.update with a mutator that
overwrites the whole state and returns unit, which converts to Render. -/
def Signal.set {S : Type} (signal : Signal S) (val : S) :
    Except String (Signal S × List Effect) :=
  Signal.update signal (fun _ => (val, ShouldRender.ofUnit ()))

/-! ### ctx.rs: Callback and CallbackProduct -/

/-- Calls into the native closure/listener API made by the Callback code in
ctx.rs: wrapping a fresh closure into a native listener object
(Closure::wrap in Callback::build) and dropping/unregistering one. -/
inductive ListenerCall where
  | wrap (id : Nat)
  | unregister (id : Nat)
deriving DecidableEq, Repr

/-- CallbackProduct from ctx.rs lines 79-82: the wrapped native listener
object (Closure, identified here by a numeric identity) together with the
boxed cell holding the current closure payload cb. -/
structure CallbackProduct (F : Type) where
  closure : Nat
  cb : F
deriving DecidableEq, Repr

/-- Callback::build from ctx.rs lines 107-122: boxes the payload, wraps a
fresh native closure around the trampoline and stores both. -/
def Callback.build {F : Type} (cb : F) (freshId : Nat) :
    CallbackProduct F × List ListenerCall :=
  (⟨freshId, cb⟩, [ListenerCall.wrap freshId])

/-- Callback::update from ctx.rs lines 124-129: writes the new closure
payload into the cell of the existing product and does nothing else - in
particular it makes no call into the native closure/listener API. -/
def Callback.update {F : Type} (cb : F) (p : CallbackProduct F) :
    CallbackProduct F × List ListenerCall :=
  (⟨p.closure, cb⟩, [])

/-- The last element of a list, or the default when the list is empty. -/
def lastOr {A : Type} (l : List A) (dflt : A) : A :=
  match l with
  | [] => dflt
  | a :: rest => lastOr rest a

/-- Repeated render passes: Callback.update applied once per pass with that
pass's freshly bound closure, accumulating the native-API calls. -/
def Callback.updateMany {F : Type} (cbs : List F) (p : CallbackProduct F) :
    CallbackProduct F × List ListenerCall :=
  match cbs with
  | [] => (p, [])
  | cb :: rest =>
    let (p1, calls) := Callback.update cb p
    let (p2, more) := Callback.updateMany rest p1
    (p2, calls ++ more)

/-! ### dom.rs: Element and Fragment -/

/-- The kind tag of dom.rs lines 16-20. -/
inductive Kind where
  | element
  | fragment
deriving DecidableEq, Repr

/-- Element from dom.rs lines 10-14: a kind tag plus the node handle
(nodes are identified by numeric ids). -/
structure Element where
  kind : Kind
  node : Nat
deriving DecidableEq, Repr

/-- Mountable::el for CallbackProduct, ctx.rs lines 132-135: unconditional
panic "Callback is not an element", modelled as Except.error; no Element is
ever produced. -/
def CallbackProduct.el {F : Type} (_ : CallbackProduct F) :
    Except String Element :=
  .error "Callback is not an element"

/-- Mountable::js for CallbackProduct, ctx.rs lines 137-139: returns the
reference to the wrapped closure object. -/
def CallbackProduct.js {F : Type} (p : CallbackProduct F) : Nat :=
  p.closure

/-- Modelled from the spec: the insert-before primitive of the external
node API (__kobold_before in util.rs, missing from the snapshot); spec
section 6.  Inserts child directly before the first occurrence of anchor
in the sibling list. -/
def insertBefore (nodes : List Nat) (anchor child : Nat) : List Nat :=
  match nodes with
  | [] => [child]
  | n :: rest =>
    if n = anchor then child :: n :: rest
    else n :: insertBefore rest anchor child

/-- Fragment from dom.rs lines 30-51, with the fragment range modelled as
the ordered list of node ids it currently contains.  __kobold_fragment
creates the empty range and __kobold_fragment_decorate (modelled from the
spec, util.rs missing) appends the persistent tail anchor node and returns
it, so a fresh fragment contains exactly its tail. -/
structure Fragment where
  children : List Nat
  tail : Nat
deriving DecidableEq, Repr

/-- Fragment::new from dom.rs lines 36-46. -/
def Fragment.new (tailNode : Nat) : Fragment :=
  ⟨[tailNode], tailNode⟩

/-- Fragment::append from dom.rs lines 48-50: __kobold_before(&self.tail,
child) - the child is inserted before the tail anchor. -/
def Fragment.append (f : Fragment) (child : Nat) : Fragment :=
  ⟨insertBefore f.children f.tail child, f.tail⟩

/-- Modelled from the spec: removing one mounted child node from the
fragment range (the remove-node primitive of the external node API, spec
section 6); the tail anchor itself is never the target of a child removal. -/
def Fragment.removeChild (f : Fragment) (child : Nat) : Fragment :=
  ⟨f.children.erase child, f.tail⟩

/-- Appending a list of children one by one. -/
def Fragment.appendAll (f : Fragment) (cs : List Nat) : Fragment :=
  cs.foldl Fragment.append f

/-- Removing a list of children one by one. -/
def Fragment.removeAll (f : Fragment) (cs : List Nat) : Fragment :=
  cs.foldl Fragment.removeChild f

/-! ### hook.rs: BoundListener -/

/-- Modelled from the spec: the Product of a raw bound closure acting as a
Listener (the Listener impl for closures lives in event.rs, missing from
the snapshot).  Spec section 9: a fixed registered trampoline (handle)
references a stable-address cell holding the current closure payload;
updating writes only the payload. -/
structure ListenerProduct (B : Type) where
  handle : Nat
  payload : B
deriving DecidableEq, Repr

/-- Modelled from the spec: updating the raw closure Listener swaps the
payload in the stable-address cell without touching the registered
trampoline (spec section 9). -/
def listenerUpdate {B : Type} (newPayload : B) (p : ListenerProduct B) :
    ListenerProduct B :=
  ⟨p.handle, newPayload⟩

/-- The bound closure produced by Bound::into_listener in hook.rs lines
160-176: it captures the raw pointer to Inner and the unbound user
callback of type U. -/
structure BoundClosure (U : Type) where
  inner : Nat
  callback : U
deriving DecidableEq, Repr

/-- Listener::update for BoundListener, hook.rs lines 216-223: when the
unbound closure type U is zero-sized (size_of is an explicit Nat argument
here) the write is skipped entirely, otherwise the payload is written
through the underlying closure Listener. -/
def boundListenerUpdate {U : Type} (sizeU : Nat) (self : BoundClosure U)
    (p : ListenerProduct (BoundClosure U)) : ListenerProduct (BoundClosure U) :=
  if sizeU ≠ 0 then listenerUpdate self p else p

/-! ### value.rs: primitive Html adapters -/

/-- A mutating call into the primitive node API made by a value update;
the text argument is of type R (String for the stringified adapters,
a byte list for the str slice adapter). -/
inductive PrimCall (R : Type) where
  | setText (text : R)
deriving DecidableEq, Repr

/-- ValueProduct from value.rs lines 4-7: the memoised value last used to
build or update, plus the mounted text node, represented by its current
text content. -/
structure ValueProduct (T : Type) where
  value : T
  text : String
deriving DecidableEq, Repr

/-- Html::build for String, value.rs lines 18-22. -/
def stringBuild (self : String) : ValueProduct String :=
  ⟨self, self⟩

/-- Html::update for String, value.rs lines 24-29: rewrite the node and
the memo only when the stored value differs from the new description. -/
def stringUpdate (self : String) (p : ValueProduct String) :
    ValueProduct String × List (PrimCall String) :=
  if p.value ≠ self then (⟨self, self⟩, [PrimCall.setText self])
  else (p, [])

/-- Html::build for &String, value.rs lines 35-42 (clones the content). -/
def refStringBuild (self : String) : ValueProduct String :=
  ⟨self, self⟩

/-- Html::update for &String, value.rs lines 44-49: same comparison as for
String, with clone_from instead of a move. -/
def refStringUpdate (self : String) (p : ValueProduct String) :
    ValueProduct String × List (PrimCall String) :=
  if p.value ≠ self then (⟨self, self⟩, [PrimCall.setText self])
  else (p, [])

/-- The body generated by impl_stringify, value.rs lines 96-130: each stringify
type T gets build and update driven by T's PartialEq (beq) and its
Stringify rendering function; update rewrites only when p.value differs
from the new description, and then calls set_text with the rendering of
the new description. -/
def stringifyBuild {T : Type} (stringify : T → String) (self : T) :
    ValueProduct T :=
  ⟨self, stringify self⟩

/-- The update half of impl_stringify, value.rs lines 108-114. -/
def stringifyUpdate {T : Type} (beq : T → T → Bool) (stringify : T → String)
    (self : T) (p : ValueProduct T) : ValueProduct T × List (PrimCall String) :=
  if beq p.value self then (p, [])
  else (⟨self, stringify self⟩, [PrimCall.setText (stringify self)])

/-- Stringify for bool, value.rs lines 62-66. -/
def boolStringify (b : Bool) : String :=
  if b then "true" else "false"

/-- Stringify for the unsigned integer types (itoa decimal rendering),
value.rs lines 68-80; the value set of an unsigned machine integer is
embedded into Nat. -/
def uintStringify (n : Nat) : String := toString n

/-- Stringify for the signed integer types (itoa decimal rendering); the
value set is embedded into Int. -/
def intStringify (i : Int) : String := toString i

/-- The bool instance of impl_stringify (value.rs line 193). -/
def boolUpdate : Bool → ValueProduct Bool → ValueProduct Bool × List (PrimCall String) :=
  stringifyUpdate (fun a b => a == b) boolStringify

/-- An unsigned integer instance of impl_stringify (value.rs lines 194-205):
equality is value equality of the machine integer. -/
def uintUpdate : Nat → ValueProduct Nat → ValueProduct Nat × List (PrimCall String) :=
  stringifyUpdate (fun a b => a == b) uintStringify

/-- A signed integer instance of impl_stringify. -/
def intUpdate : Int → ValueProduct Int → ValueProduct Int × List (PrimCall String) :=
  stringifyUpdate (fun a b => a == b) intStringify

/-- An IEEE float value as far as PartialEq can observe it: NaN, or a
numeric value (modelled as a rational). -/
inductive F64 where
  | nan
  | num (q : ℚ)
deriving DecidableEq, Repr

/-- Rust PartialEq for floats: NaN compares unequal to everything,
including itself. -/
def f64Beq : F64 → F64 → Bool
  | F64.num a, F64.num b => a == b
  | _, _ => false

/-- The float instances of impl_stringify (value.rs lines 206-207), with
the ryu rendering function kept as a parameter (the update logic never
inspects it). -/
def floatUpdate (stringify : F64 → String) :
    F64 → ValueProduct F64 → ValueProduct F64 × List (PrimCall String) :=
  stringifyUpdate f64Beq stringify

/-! ### value.rs: the &str adapter and StrCmp -/

/-- The FNV-1a 64-bit offset basis used by fnv::FnvHasher. -/
def fnvOffsetBasis : Nat := 0xcbf29ce484222325

/-- The FNV-1a 64-bit prime. -/
def fnvPrime : Nat := 0x100000001b3

/-- One FNV-1a step: xor in the byte, multiply by the prime, wrap at 64
bits. -/
def fnvStep (h b : Nat) : Nat := ((h ^^^ b) * fnvPrime) % 2 ^ 64

/-- FNV-1a 64-bit over a byte sequence. -/
def fnv1a (bytes : List Nat) : Nat := bytes.foldl fnvStep fnvOffsetBasis

/-- Hash for str as fed to FnvHasher in From<&str> for StrCmp: the UTF-8
bytes followed by the 0xff terminator byte that the standard-library str
Hash impl appends. -/
def rustStrHash (bytes : List Nat) : Nat := fnv1a (bytes ++ [0xff])

/-- A Rust &str as the comparison in value.rs can observe it: its UTF-8
byte content together with the address of its first byte (s.as_ptr()). -/
structure Str where
  bytes : List Nat
  ptr : Nat
deriving DecidableEq, Repr

/-- StrCmp from value.rs lines 132-135: a single 64-bit key. -/
structure StrCmp where
  hash : Nat
deriving DecidableEq, Repr

/-- From<&str> for StrCmp, value.rs lines 137-156: strings longer than 32
bytes are keyed by length in the low 32 bits or-ed with the address
shifted into the high 32 bits; strings of at most 32 bytes are keyed by
their FNV-1a content hash. -/
def StrCmp.ofStr (s : Str) : StrCmp :=
  if s.bytes.length > 32 then
    ⟨(s.bytes.length % 2 ^ 64) ||| (((s.ptr % 2 ^ 64) <<< 32) % 2 ^ 64)⟩
  else
    ⟨rustStrHash s.bytes⟩

/-- The Product of the &str adapter: the StrCmp memo plus the mounted text
node, represented by the byte content it currently displays. -/
structure StrProduct where
  value : StrCmp
  text : List Nat
deriving DecidableEq, Repr

/-- Html::build for &str, value.rs lines 161-165. -/
def strBuild (self : Str) : StrProduct :=
  ⟨StrCmp.ofStr self, self.bytes⟩

/-- Html::update for &str, value.rs lines 167-174: compute the StrCmp key
of the new description and rewrite node and memo only when it differs from
the stored key. -/
def strUpdate (self : Str) (p : StrProduct) :
    StrProduct × List (PrimCall (List Nat)) :=
  let new := StrCmp.ofStr self
  if p.value ≠ new then (⟨new, self.bytes⟩, [PrimCall.setText self.bytes])
  else (p, [])

/-! ### Helper lemmas -/

/-- The effect list of a firing that did not abort ([] after an abort). -/
def firingEffects {A : Type} (r : Except String (A × List Effect)) :
    List Effect :=
  match r with
  | .ok (_, effs) => effs
  | .error _ => []

/-- On a cell with no open exclusive borrow, the Context trampoline runs
the callback and emits the render effect exactly when the decision says
render. -/
theorem contextTrampoline_ok {S E : Type} (cb : S → E → S × ShouldRender)
    (inner : Inner S) (e : E) (h : inner.state.borrowed = false) :
    contextTrampoline cb inner e =
      .ok (⟨⟨(cb inner.state.value e).1, false⟩⟩,
        [Effect.mutatorCall] ++
          (if (cb inner.state.value e).2.should_render then [Effect.innerUpdate] else [])) := by
  unfold contextTrampoline
  rw [h]
  rcases cb inner.state.value e with ⟨s, d⟩
  simp

/-- The Bound trampoline always runs the callback, with no borrow check. -/
theorem boundTrampoline_eq {S E : Type} (cb : S → E → S × ShouldRender)
    (inner : Inner S) (e : E) :
    boundTrampoline cb inner e =
      .ok (⟨⟨(cb inner.state.value e).1, inner.state.borrowed⟩⟩,
        [Effect.mutatorCall] ++
          (if (cb inner.state.value e).2.should_render then [Effect.innerUpdate] else [])) := by
  unfold boundTrampoline
  rcases cb inner.state.value e with ⟨s, d⟩
  simp

/-- On a live signal over an unborrowed cell, Signal::update runs the
mutator and emits the render effect exactly when the decision says
render. -/
theorem signalUpdate_ok {S : Type} (m : S → S × ShouldRender)
    (inner : Inner S) (h : inner.state.borrowed = false) :
    Signal.update (some inner) m =
      .ok (some ⟨⟨(m inner.state.value).1, false⟩⟩,
        [Effect.mutatorCall] ++
          (if (m inner.state.value).2.should_render then [Effect.innerUpdate] else [])) := by
  rcases hm : m inner.state.value with ⟨s, d⟩
  simp [Signal.update, h, hm]

/-- Counting the render effect in a firing effect list. -/
theorem count_innerUpdate (d : ShouldRender) :
    ([Effect.mutatorCall] ++
        (if d.should_render then [Effect.innerUpdate] else [])).count
      Effect.innerUpdate = if d.should_render then 1 else 0 := by
  cases d <;> rfl

/-! ### Claim theorems -/

/-- C5: for every Signal whose owning Inner has been destroyed (failed
weak upgrade), update, update_silent and set all return normally with the
dead handle unchanged and an empty effect list - the mutator is never
invoked (the result does not depend on it), no state is touched, nothing
renders, and no error or abort occurs. -/
theorem signal_dead_noop {S : Type} (m : S → S × ShouldRender)
    (ms : S → S) (v : S) :
    Signal.update (S := S) none m = .ok (none, []) ∧
    Signal.update_silent (S := S) none ms = .ok (none, []) ∧
    Signal.set (S := S) none v = .ok (none, []) :=
  ⟨rfl, rfl, rfl⟩

/-- C7: for every live Signal and every mutator, update_silent applies the
mutator to the state exactly once (one mutatorCall effect, new state is
the mutator applied to the old) and never calls Inner::update, whatever
the mutator does to the state. -/
theorem signal_update_silent_never_renders {S : Type} (inner : Inner S)
    (m : S → S) (h : inner.state.borrowed = false) :
    Signal.update_silent (some inner) m =
      .ok (some ⟨⟨m inner.state.value, false⟩⟩, [Effect.mutatorCall]) := by
  simp [Signal.update_silent, h]

/-- Closed witness for C7 at state 0 with an increment mutator. -/
theorem signal_update_silent_never_renders_witness :
    Signal.update_silent (some ⟨⟨(0 : Nat), false⟩⟩) (fun s => s + 1) =
      .ok (some ⟨⟨1, false⟩⟩, [Effect.mutatorCall]) :=
  signal_update_silent_never_renders ⟨⟨(0 : Nat), false⟩⟩ (fun s => s + 1) rfl

/-- C4: on each firing path - Context-built callback, Bound listener, and
Signal::update - the number of Inner::update calls is exactly one when the
mutator's decision converts to render, and exactly zero when it converts
to skip. -/
theorem render_gating {S E : Type} (cb : S → E → S × ShouldRender)
    (m : S → S × ShouldRender) (inner : Inner S) (e : E)
    (h : inner.state.borrowed = false) :
    ((firingEffects (contextTrampoline cb inner e)).count Effect.innerUpdate
        = if (cb inner.state.value e).2.should_render then 1 else 0) ∧
    ((firingEffects (boundTrampoline cb inner e)).count Effect.innerUpdate
        = if (cb inner.state.value e).2.should_render then 1 else 0) ∧
    ((firingEffects (Signal.update (some inner) m)).count Effect.innerUpdate
        = if (m inner.state.value).2.should_render then 1 else 0) := by
  refine ⟨?_, ?_, ?_⟩
  · rw [contextTrampoline_ok cb inner e h]
    exact count_innerUpdate _
  · rw [boundTrampoline_eq cb inner e]
    exact count_innerUpdate _
  · rw [signalUpdate_ok m inner h]
    exact count_innerUpdate _

/-- Closed witness for C4: a rendering callback and a skipping mutator on
state 0. -/
theorem render_gating_witness :
    ((firingEffects (contextTrampoline
        (fun (s : Nat) (_ : Unit) => (s + 1, ShouldRender.render)) ⟨⟨0, false⟩⟩ ())).count
          Effect.innerUpdate = 1) ∧
    ((firingEffects (boundTrampoline
        (fun (s : Nat) (_ : Unit) => (s + 1, ShouldRender.render)) ⟨⟨0, false⟩⟩ ())).count
          Effect.innerUpdate = 1) ∧
    ((firingEffects (Signal.update (some ⟨⟨(0 : Nat), false⟩⟩)
        (fun s => (s, ShouldRender.skip)))).count Effect.innerUpdate = 0) :=
  render_gating (fun (s : Nat) (_ : Unit) => (s + 1, ShouldRender.render))
    (fun s => (s, ShouldRender.skip)) ⟨⟨0, false⟩⟩ () rfl

/-- C1 counterexample: with an exclusive borrow already open on the cell
(borrowed = true), the Context trampoline aborts, but the Bound listener
trampoline proceeds normally - it mutates the state through the unchecked
fast path and even triggers a render - so it is not true that every
event-listener trampoline acquires through a checked acquire that aborts
on conflict. -/
theorem bound_path_no_checked_acquire :
    contextTrampoline (fun (s : Nat) (_ : Unit) => (s + 1, ShouldRender.render))
        ⟨⟨0, true⟩⟩ () = .error "already borrowed" ∧
    boundTrampoline (fun (s : Nat) (_ : Unit) => (s + 1, ShouldRender.render))
        ⟨⟨0, true⟩⟩ () =
      .ok (⟨⟨1, true⟩⟩, [Effect.mutatorCall, Effect.innerUpdate]) :=
  ⟨rfl, rfl⟩

/-- C1 amended: acquiring an exclusive borrow while another is already
open aborts on the Context callback path (checked borrow_mut); the Bound
listener path instead takes the state through the unchecked fast path
(mut_unchecked) and never aborts - its exclusivity rests on the
architectural single-threaded non-reentrancy precondition, not on a
runtime check. -/
theorem exclusive_borrow_abort_paths {S E : Type}
    (cb : S → E → S × ShouldRender) (inner : Inner S) (e : E)
    (h : inner.state.borrowed = true) :
    contextTrampoline cb inner e = .error "already borrowed" ∧
    boundTrampoline cb inner e =
      .ok (⟨⟨(cb inner.state.value e).1, true⟩⟩,
        [Effect.mutatorCall] ++
          (if (cb inner.state.value e).2.should_render then [Effect.innerUpdate] else [])) := by
  constructor
  · unfold contextTrampoline
    rw [h]
    simp
  · rw [boundTrampoline_eq cb inner e, h]

/-- Closed witness for the amended C1 on a borrowed cell holding 7. -/
theorem exclusive_borrow_abort_paths_witness :
    contextTrampoline (fun (s : Nat) (_ : Unit) => (s, ShouldRender.skip))
        ⟨⟨7, true⟩⟩ () = .error "already borrowed" ∧
    boundTrampoline (fun (s : Nat) (_ : Unit) => (s, ShouldRender.skip))
        ⟨⟨7, true⟩⟩ () =
      .ok (⟨⟨7, true⟩⟩, [Effect.mutatorCall] ++
        (if ShouldRender.skip.should_render then [Effect.innerUpdate] else [])) :=
  exclusive_borrow_abort_paths (fun (s : Nat) (_ : Unit) => (s, ShouldRender.skip))
    ⟨⟨7, true⟩⟩ () rfl

/-- C9: for every closure type F and every CallbackProduct, the
element-only operation el aborts loudly with the message "Callback is not
an element" and never yields an Element. -/
theorem callback_product_el_aborts {F : Type} (p : CallbackProduct F) :
    CallbackProduct.el p = .error "Callback is not an element" ∧
    (CallbackProduct.el p).isOk = false :=
  ⟨rfl, rfl⟩

/-- C6: updating an existing CallbackProduct with freshly bound closures,
over any number of render passes, replaces only the payload in the cell
(the final payload is the last rebound closure), keeps the wrapped native
listener object identical, and makes no call into the native
closure/listener API - nothing is unregistered, re-created or
re-registered. -/
theorem callback_update_keeps_listener {F : Type} (cbs : List F)
    (p : CallbackProduct F) :
    Callback.updateMany cbs p =
      (⟨p.closure, lastOr cbs p.cb⟩, []) := by
  induction cbs generalizing p with
  | nil => rfl
  | cons cb rest ih =>
    simp [Callback.updateMany, Callback.update, ih, lastOr]

/-- C10: Listener::update for BoundListener skips the payload write when
the unbound closure type U is zero-sized, and the skip is observationally
equivalent to performing the write - a zero-sized closure type has exactly
one value, and the bound closure captures the same Inner pointer as the
one already stored, so the skipped product equals the written one; for a
non-zero size the payload is written through the underlying closure
Listener. -/
theorem bound_listener_zst_skip {U : Type} (self : BoundClosure U)
    (p : ListenerProduct (BoundClosure U)) :
    ((∀ a b : U, a = b) → p.payload.inner = self.inner →
      boundListenerUpdate 0 self p = p ∧
      boundListenerUpdate 0 self p = listenerUpdate self p) ∧
    (∀ sizeU : Nat, sizeU ≠ 0 →
      boundListenerUpdate sizeU self p = listenerUpdate self p) := by
  constructor
  · intro hsub hinner
    have hpayload : p.payload = self := by
      rcases hp : p.payload with ⟨i, u⟩
      rcases hs : self with ⟨j, w⟩
      have hij : i = j := by
        have := hinner
        rw [hp, hs] at this
        exact this
      have huw : u = w := hsub u w
      rw [hij, huw]
    constructor
    · rfl
    · unfold boundListenerUpdate listenerUpdate
      simp
      rcases p with ⟨handle, payload⟩
      simp at hpayload
      rw [hpayload]
  · intro sizeU hs
    unfold boundListenerUpdate
    rw [if_pos hs]

/-- Closed witness for C10: the unit closure type (zero-sized) with
matching Inner pointer, and a non-zero size. -/
theorem bound_listener_zst_skip_witness :
    (boundListenerUpdate 0 (⟨5, ()⟩ : BoundClosure Unit) ⟨9, ⟨5, ()⟩⟩ = ⟨9, ⟨5, ()⟩⟩ ∧
      boundListenerUpdate 0 (⟨5, ()⟩ : BoundClosure Unit) ⟨9, ⟨5, ()⟩⟩ =
        listenerUpdate ⟨5, ()⟩ ⟨9, ⟨5, ()⟩⟩) ∧
    boundListenerUpdate 1 (⟨5, ()⟩ : BoundClosure Unit) ⟨9, ⟨5, ()⟩⟩ =
      listenerUpdate ⟨5, ()⟩ ⟨9, ⟨5, ()⟩⟩ := by
  have h := bound_listener_zst_skip (⟨5, ()⟩ : BoundClosure Unit) ⟨9, ⟨5, ()⟩⟩
  exact ⟨h.1 (fun a b => rfl) rfl, h.2 1 (by decide)⟩

/-- Inserting before the tail that closes the sibling list places the new
child just in front of it. -/
theorem insertBefore_closing_tail (l : List Nat) (t c : Nat) (h : t ∉ l) :
    insertBefore (l ++ [t]) t c = l ++ [c, t] := by
  induction l with
  | nil => simp [insertBefore]
  | cons a rest ih =>
    have hat : a ≠ t := fun hat => h (hat ▸ List.mem_cons_self a rest)
    have hrest : t ∉ rest := fun hr => h (List.mem_cons_of_mem a hr)
    simp only [List.cons_append, insertBefore]
    rw [if_neg (fun hh => hat hh)]
    simp only [List.append_eq]
    rw [ih hrest]

/-- Appending children one by one keeps the tail last with all appended
children accumulated in order before it. -/
theorem appendAll_closing_tail (pre cs : List Nat) (t : Nat)
    (hpre : t ∉ pre) (hcs : t ∉ cs) :
    Fragment.appendAll ⟨pre ++ [t], t⟩ cs = ⟨pre ++ cs ++ [t], t⟩ := by
  induction cs generalizing pre with
  | nil => simp [Fragment.appendAll]
  | cons c rest ih =>
    have hct : t ≠ c := fun hh => hcs (hh ▸ List.mem_cons_self c rest)
    have hrest : t ∉ rest := fun hr => hcs (List.mem_cons_of_mem c hr)
    show Fragment.appendAll (Fragment.append ⟨pre ++ [t], t⟩ c) rest = _
    have hstep : Fragment.append ⟨pre ++ [t], t⟩ c = ⟨(pre ++ [c]) ++ [t], t⟩ := by
      unfold Fragment.append
      rw [insertBefore_closing_tail pre t c hpre]
      simp
    rw [hstep]
    have hpre2 : t ∉ pre ++ [c] := by
      intro hh
      rcases List.mem_append.mp hh with h1 | h2
      · exact hpre h1
      · exact hct (List.mem_singleton.mp h2)
    rw [ih (pre ++ [c]) hpre2 hrest]
    simp

/-- Removing the appended children one by one restores the original
sibling list; the tail anchor is never a removal target. -/
theorem removeAll_restores (pre cs : List Nat) (t : Nat)
    (hdisj : ∀ c ∈ cs, c ∉ pre) :
    Fragment.removeAll ⟨pre ++ cs ++ [t], t⟩ cs = ⟨pre ++ [t], t⟩ := by
  induction cs generalizing pre with
  | nil => simp [Fragment.removeAll]
  | cons c rest ih =>
    show Fragment.removeAll (Fragment.removeChild ⟨pre ++ (c :: rest) ++ [t], t⟩ c) rest = _
    have hstep : Fragment.removeChild ⟨pre ++ (c :: rest) ++ [t], t⟩ c =
        ⟨pre ++ rest ++ [t], t⟩ := by
      unfold Fragment.removeChild
      have hcpre : c ∉ pre := hdisj c (List.mem_cons_self c rest)
      rw [List.append_assoc, List.erase_append_right _ hcpre]
      simp [List.erase_cons_head]
    rw [hstep]
    exact ih pre (fun x hx => hdisj x (List.mem_cons_of_mem c hx))

/-- C8: for every fragment whose sibling run ends in its tail anchor,
appending N fresh children (each inserted before the tail anchor) and then
removing all of them restores the fragment exactly: the tail anchor is
still present, and a subsequent append inserts before it just as it did
before the whole sequence. -/
theorem fragment_anchor_stable (pre cs : List Nat) (t : Nat)
    (hpre : t ∉ pre) (hcs : t ∉ cs) (hdisj : ∀ c ∈ cs, c ∉ pre) :
    Fragment.removeAll (Fragment.appendAll ⟨pre ++ [t], t⟩ cs) cs = ⟨pre ++ [t], t⟩ ∧
    t ∈ (Fragment.removeAll (Fragment.appendAll ⟨pre ++ [t], t⟩ cs) cs).children ∧
    ∀ c : Nat,
      Fragment.append (Fragment.removeAll (Fragment.appendAll ⟨pre ++ [t], t⟩ cs) cs) c =
        Fragment.append ⟨pre ++ [t], t⟩ c := by
  have hmain : Fragment.removeAll (Fragment.appendAll ⟨pre ++ [t], t⟩ cs) cs =
      ⟨pre ++ [t], t⟩ := by
    rw [appendAll_closing_tail pre cs t hpre hcs]
    exact removeAll_restores pre cs t hdisj
  refine ⟨hmain, ?_, ?_⟩
  · rw [hmain]
    simp
  · intro c
    rw [hmain]

/-- Closed witness for C8: a fragment holding one child before tail anchor
0, two fresh children appended then removed. -/
theorem fragment_anchor_stable_witness :
    Fragment.removeAll (Fragment.appendAll ⟨[1] ++ [0], 0⟩ [2, 3]) [2, 3] = ⟨[1] ++ [0], 0⟩ ∧
    0 ∈ (Fragment.removeAll (Fragment.appendAll ⟨[1] ++ [0], 0⟩ [2, 3]) [2, 3]).children ∧
    ∀ c : Nat,
      Fragment.append (Fragment.removeAll (Fragment.appendAll ⟨[1] ++ [0], 0⟩ [2, 3]) [2, 3]) c =
        Fragment.append ⟨[1] ++ [0], 0⟩ c :=
  fragment_anchor_stable [1] [2, 3] 0 (by decide) (by decide)
    (by intro c hc; fin_cases hc <;> decide)

/-- Byte-equal strings of at most 32 bytes get the same StrCmp key (the
content hash). -/
theorem ofStr_eq_of_short (s1 s2 : Str) (hb : s1.bytes = s2.bytes)
    (hl : s2.bytes.length ≤ 32) : StrCmp.ofStr s1 = StrCmp.ofStr s2 := by
  unfold StrCmp.ofStr
  rw [hb]
  rw [if_neg (by omega), if_neg (by omega)]

/-- Strings with equal bytes and equal address are the same Str, hence get
the same StrCmp key. -/
theorem ofStr_eq_of_ptr (s1 s2 : Str) (hb : s1.bytes = s2.bytes)
    (hp : s1.ptr = s2.ptr) : StrCmp.ofStr s1 = StrCmp.ofStr s2 := by
  rcases s1 with ⟨b1, p1⟩
  rcases s2 with ⟨b2, p2⟩
  simp only at hb hp
  rw [hb, hp]

/-- C2 counterexample: two &str descriptions with identical 33-byte
content ("a" repeated 33 times) living at different addresses; updating
the product built from the first with the second performs a set_text call,
so the claim fails for &str for equal contents longer than 32 bytes. -/
theorem long_equal_str_rewrites :
    (⟨List.replicate 33 97, 0⟩ : Str).bytes = (⟨List.replicate 33 97, 4⟩ : Str).bytes ∧
    (strUpdate ⟨List.replicate 33 97, 4⟩ (strBuild ⟨List.replicate 33 97, 0⟩)).2 =
      [PrimCall.setText (List.replicate 33 97)] := by
  constructor
  · rfl
  · decide

/-- C2 amended: an update with a description equal to the memoised one
performs zero mutating primitive-API calls for String, &String, bool, the
integer types and (under Rust float equality) the float types; for &str it
holds when the equal content is at most 32 bytes long (content-hash
comparison), or when the length and the address also coincide - an
equal-content &str longer than 32 bytes at a different address is not
covered and does perform a set_text call. -/
theorem primitive_update_idempotent :
    (∀ (v : String) (p : ValueProduct String), p.value = v →
        stringUpdate v p = (p, [])) ∧
    (∀ (v : String) (p : ValueProduct String), p.value = v →
        refStringUpdate v p = (p, [])) ∧
    (∀ (v : Bool) (p : ValueProduct Bool), p.value = v →
        boolUpdate v p = (p, [])) ∧
    (∀ (v : Nat) (p : ValueProduct Nat), p.value = v →
        uintUpdate v p = (p, [])) ∧
    (∀ (v : Int) (p : ValueProduct Int), p.value = v →
        intUpdate v p = (p, [])) ∧
    (∀ (st : F64 → String) (v : F64) (p : ValueProduct F64),
        f64Beq p.value v = true → floatUpdate st v p = (p, [])) ∧
    (∀ (s1 s2 : Str) (p : StrProduct), p.value = StrCmp.ofStr s1 →
        s1.bytes = s2.bytes → s2.bytes.length ≤ 32 →
        strUpdate s2 p = (p, [])) ∧
    (∀ (s1 s2 : Str) (p : StrProduct), p.value = StrCmp.ofStr s1 →
        s1.bytes = s2.bytes → s1.ptr = s2.ptr →
        strUpdate s2 p = (p, [])) := by
  refine ⟨?_, ?_, ?_, ?_, ?_, ?_, ?_, ?_⟩
  · intro v p h
    simp [stringUpdate, h]
  · intro v p h
    simp [refStringUpdate, h]
  · intro v p h
    simp [boolUpdate, stringifyUpdate, h]
  · intro v p h
    simp [uintUpdate, stringifyUpdate, h]
  · intro v p h
    simp [intUpdate, stringifyUpdate, h]
  · intro st v p h
    simp [floatUpdate, stringifyUpdate, h]
  · intro s1 s2 p hv hb hl
    rw [ofStr_eq_of_short s1 s2 hb hl] at hv
    simp [strUpdate, hv]
  · intro s1 s2 p hv hb hp
    rw [ofStr_eq_of_ptr s1 s2 hb hp] at hv
    simp [strUpdate, hv]

/-- Closed witness for the amended C2, one concrete instance per primitive
adapter. -/
theorem primitive_update_idempotent_witness :
    stringUpdate "hi" ⟨"hi", "hi"⟩ = (⟨"hi", "hi"⟩, []) ∧
    refStringUpdate "hi" ⟨"hi", "hi"⟩ = (⟨"hi", "hi"⟩, []) ∧
    boolUpdate true ⟨true, "true"⟩ = (⟨true, "true"⟩, []) ∧
    uintUpdate 7 ⟨7, "7"⟩ = (⟨7, "7"⟩, []) ∧
    intUpdate (-7) ⟨-7, "-7"⟩ = (⟨-7, "-7"⟩, []) ∧
    floatUpdate (fun _ => "1.0") (F64.num 1) ⟨F64.num 1, "1.0"⟩ =
      (⟨F64.num 1, "1.0"⟩, []) ∧
    strUpdate ⟨[97], 50⟩ (strBuild ⟨[97], 20⟩) = (strBuild ⟨[97], 20⟩, []) ∧
    strUpdate ⟨List.replicate 33 97, 20⟩ (strBuild ⟨List.replicate 33 97, 20⟩) =
      (strBuild ⟨List.replicate 33 97, 20⟩, []) := by
  have h := primitive_update_idempotent
  exact ⟨h.1 "hi" ⟨"hi", "hi"⟩ rfl,
    h.2.1 "hi" ⟨"hi", "hi"⟩ rfl,
    h.2.2.1 true ⟨true, "true"⟩ rfl,
    h.2.2.2.1 7 ⟨7, "7"⟩ rfl,
    h.2.2.2.2.1 (-7) ⟨-7, "-7"⟩ rfl,
    h.2.2.2.2.2.1 (fun _ => "1.0") (F64.num 1) ⟨F64.num 1, "1.0"⟩ (by decide),
    h.2.2.2.2.2.2.1 ⟨[97], 20⟩ ⟨[97], 50⟩ (strBuild ⟨[97], 20⟩) rfl rfl (by decide),
    h.2.2.2.2.2.2.2 ⟨List.replicate 33 97, 20⟩ ⟨List.replicate 33 97, 20⟩
      (strBuild ⟨List.replicate 33 97, 20⟩) rfl rfl rfl⟩

/-- C3 counterexample: the 16-byte ASCII strings "1d450d6c774512b0" and
"d7de5bbfb3dc4204" have distinct contents but the same FNV-1a 64-bit
comparison hash, so updating a product built from the first with the
second performs no set_text call and leaves the mounted text node showing
the first content - a false-equal comparison skips the write. -/
theorem str_collision_skips_rewrite :
    (⟨[49, 100, 52, 53, 48, 100, 54, 99, 55, 55, 52, 53, 49, 50, 98, 48], 0⟩ : Str).bytes ≠
      (⟨[100, 55, 100, 101, 53, 98, 98, 102, 98, 51, 100, 99, 52, 50, 48, 52], 16⟩ : Str).bytes ∧
    strUpdate ⟨[100, 55, 100, 101, 53, 98, 98, 102, 98, 51, 100, 99, 52, 50, 48, 52], 16⟩
        (strBuild ⟨[49, 100, 52, 53, 48, 100, 54, 99, 55, 55, 52, 53, 49, 50, 98, 48], 0⟩) =
      (strBuild ⟨[49, 100, 52, 53, 48, 100, 54, 99, 55, 55, 52, 53, 49, 50, 98, 48], 0⟩, []) ∧
    (strBuild ⟨[49, 100, 52, 53, 48, 100, 54, 99, 55, 55, 52, 53, 49, 50, 98, 48], 0⟩).text ≠
      [100, 55, 100, 101, 53, 98, 98, 102, 98, 51, 100, 99, 52, 50, 48, 52] := by
  refine ⟨by decide, ?_, by decide⟩
  decide

/-- C3 amended: update rewrites the mounted node exactly when the stored
memo differs from the comparison key of the new description, and then the
memo becomes that key and set_text receives the rendering of the new
description; for &str the comparison key is the StrCmp key, so distinct
contents with colliding keys are not rewritten. -/
theorem primitive_update_applies_changes :
    (∀ (v : String) (p : ValueProduct String), p.value ≠ v →
        stringUpdate v p = (⟨v, v⟩, [PrimCall.setText v])) ∧
    (∀ (v : String) (p : ValueProduct String), p.value ≠ v →
        refStringUpdate v p = (⟨v, v⟩, [PrimCall.setText v])) ∧
    (∀ (T : Type) (beq : T → T → Bool) (st : T → String) (v : T)
        (p : ValueProduct T), beq p.value v = false →
        stringifyUpdate beq st v p = (⟨v, st v⟩, [PrimCall.setText (st v)])) ∧
    (∀ (s : Str) (p : StrProduct), p.value ≠ StrCmp.ofStr s →
        strUpdate s p = (⟨StrCmp.ofStr s, s.bytes⟩, [PrimCall.setText s.bytes])) := by
  refine ⟨?_, ?_, ?_, ?_⟩
  · intro v p h
    simp [stringUpdate, h]
  · intro v p h
    simp [refStringUpdate, h]
  · intro T beq st v p h
    simp [stringifyUpdate, h]
  · intro s p h
    simp [strUpdate, h]

/-- Closed witness for the amended C3: a changed String and a changed &str
description each rewrite the node. -/
theorem primitive_update_applies_changes_witness :
    stringUpdate "b" ⟨"a", "a"⟩ = (⟨"b", "b"⟩, [PrimCall.setText "b"]) ∧
    stringifyUpdate (fun (a b : Bool) => a == b) boolStringify false ⟨true, "true"⟩ =
      (⟨false, "false"⟩, [PrimCall.setText "false"]) ∧
    strUpdate ⟨[98], 0⟩ (strBuild ⟨[97], 0⟩) =
      (⟨StrCmp.ofStr ⟨[98], 0⟩, [98]⟩, [PrimCall.setText [98]]) := by
  have h := primitive_update_applies_changes
  exact ⟨h.1 "b" ⟨"a", "a"⟩ (by decide),
    h.2.2.1 Bool (fun a b => a == b) boolStringify false ⟨true, "true"⟩ (by decide),
    h.2.2.2 ⟨[98], 0⟩ (strBuild ⟨[97], 0⟩) (by decide)⟩

end Kobold
